import Mathlib

/-!
Verification development for the transaction import/reporting service.

The definitions below are a shallow embedding of the Python sources:
  * `app/schemas/schemas.py`   — `TransactionCSVRow` field validation,
    `CurrencyEnum`, `EXCHANGE_RATES`, `ValidationError`.
  * `app/services/services.py` — `ImportService._parse_csv`,
    `ImportService.import_csv`, `ImportService._process_transactions`,
    `ReportService.get_customer_summary` / `get_product_summary`.
  * `app/repositories/repositories.py` — `TransactionRepository.create_bulk`,
    `TransactionRepository.exists`, `TransactionRepository.get_customer_summary`,
    `TransactionRepository.get_product_summary`,
    `CustomerRepository.get_or_create_bulk`, `ProductRepository.get_or_create_bulk`,
    `ImportBatchRepository` status bookkeeping.

UUIDs are modelled as their 128-bit numeric value (`Nat`); Python `Decimal`
values are modelled exactly as a mantissa together with the number of digits
after the decimal point.  Monetary values stored in the database column
`DECIMAL(10, 2)` are modelled as integer hundredths; the fixed exchange rates
(1.0 / 4.3 / 4.0 all having one fractional digit) are modelled as integer
tenths, so every product `amount * rate` is an exact integer of thousandths.
-/

/-! ## Characters and low-level string parsing -/

/-- Whitespace characters stripped by Python `str.strip()` (the subset that can
occur in CSV fields). -/
def isSpaceChar (c : Char) : Bool :=
  c = ' ' || c = '\t' || c = '\n' || c = '\r'

/-- Strip leading and trailing whitespace from a character list. -/
def stripChars (l : List Char) : List Char :=
  ((l.dropWhile isSpaceChar).reverse.dropWhile isSpaceChar).reverse

/-- Strip leading and trailing whitespace from a string, as applied by the
`str_strip_whitespace=True` model configuration of `TransactionCSVRow`. -/
def stripSpaces (s : String) : String :=
  String.mk (stripChars s.toList)

def isDigitChar (c : Char) : Bool :=
  '0' ≤ c && c ≤ '9'

def digitVal (c : Char) : Nat :=
  c.toNat - '0'.toNat

def digitsToNat (l : List Char) : Nat :=
  l.foldl (fun a c => a * 10 + digitVal c) 0

def isHexChar (c : Char) : Bool :=
  isDigitChar c || ('a' ≤ c && c ≤ 'f') || ('A' ≤ c && c ≤ 'F')

def hexVal (c : Char) : Nat :=
  if isDigitChar c then c.toNat - '0'.toNat
  else if 'a' ≤ c && c ≤ 'f' then c.toNat - 'a'.toNat + 10
  else c.toNat - 'A'.toNat + 10

def hexToNat (l : List Char) : Nat :=
  l.foldl (fun a c => a * 16 + hexVal c) 0

/-! ## Decimal values (Python `decimal.Decimal` as produced by parsing) -/

/-- A decimal number exactly as written: value = `mantissa / 10 ^ scale`.
`scale` is the number of digits after the decimal point, i.e. the negated
exponent of `Decimal.as_tuple()` (trailing zeros are preserved, so
`Decimal("0.00")` is `⟨0, 2⟩` and `Decimal("10.005")` is `⟨10005, 3⟩`). -/
structure DecimalRep where
  mantissa : Int
  scale : Nat
deriving DecidableEq, Repr

/-- Parse an unsigned decimal literal: digits, optionally followed by a point
and further digits, at least one digit in total. -/
def parseDecimalCore (l : List Char) : Option DecimalRep :=
  let intPart := l.takeWhile (fun c => c != '.')
  match l.dropWhile (fun c => c != '.') with
  | [] =>
    if intPart ≠ [] ∧ intPart.all isDigitChar then
      some ⟨digitsToNat intPart, 0⟩
    else none
  | _ :: frac =>
    if (intPart ≠ [] ∨ frac ≠ []) ∧ intPart.all isDigitChar ∧ frac.all isDigitChar then
      some ⟨digitsToNat (intPart ++ frac), frac.length⟩
    else none

/-- Parse a (possibly signed) decimal literal, whitespace-stripped first,
mirroring `Decimal(str)` construction on the plain-number grammar used by the
CSV `amount` field. -/
def parseDecimal (s : String) : Option DecimalRep :=
  match stripChars s.toList with
  | '-' :: rest => (parseDecimalCore rest).map (fun d => ⟨-d.mantissa, d.scale⟩)
  | '+' :: rest => parseDecimalCore rest
  | l => parseDecimalCore l

/-- Parse an integer literal (for the `quantity` field), whitespace-stripped,
mirroring the string-to-int coercion applied by the row schema. -/
def parseIntStr (s : String) : Option Int :=
  match stripChars s.toList with
  | [] => none
  | '-' :: ds =>
    if ds ≠ [] ∧ ds.all isDigitChar then some (-(digitsToNat ds : Int)) else none
  | '+' :: ds =>
    if ds ≠ [] ∧ ds.all isDigitChar then some ((digitsToNat ds : Int)) else none
  | ds =>
    if ds.all isDigitChar then some ((digitsToNat ds : Int)) else none

/-! ## UUID and timestamp parsing -/

/-- UUIDs are modelled by their 128-bit value. -/
abbrev Uuid := Nat

/-- Split a character list into the groups separated by a dash. -/
def splitDashes : List Char → List (List Char)
  | [] => [[]]
  | '-' :: rest => [] :: splitDashes rest
  | c :: rest =>
    match splitDashes rest with
    | [] => [[c]]
    | g :: gs => (c :: g) :: gs

/-- Parse the canonical 8-4-4-4-12 hexadecimal UUID form accepted for the
`transaction_id`, `customer_id` and `product_id` fields. -/
def parseUUID (s : String) : Option Uuid :=
  match splitDashes (stripChars s.toList) with
  | [g1, g2, g3, g4, g5] =>
    if g1.length = 8 ∧ g2.length = 4 ∧ g3.length = 4 ∧ g4.length = 4 ∧ g5.length = 12
        ∧ (g1 ++ g2 ++ g3 ++ g4 ++ g5).all isHexChar then
      some (hexToNat (g1 ++ g2 ++ g3 ++ g4 ++ g5))
    else none
  | _ => none

/-- Parse the ISO-8601 form `YYYY-MM-DDTHH:MM:SS` for the `timestamp` field
(the subset exercised by the import files); the value is encoded so that the
numeric order coincides with chronological order. -/
def parseTimestamp (s : String) : Option Int :=
  match stripChars s.toList with
  | [y1, y2, y3, y4, '-', m1, m2, '-', d1, d2, 'T',
     h1, h2, ':', n1, n2, ':', s1, s2] =>
    if ([y1, y2, y3, y4, m1, m2, d1, d2, h1, h2, n1, n2, s1, s2].all isDigitChar) then
      let mo := digitsToNat [m1, m2]
      let da := digitsToNat [d1, d2]
      let ho := digitsToNat [h1, h2]
      let mi := digitsToNat [n1, n2]
      let se := digitsToNat [s1, s2]
      if 1 ≤ mo ∧ mo ≤ 12 ∧ 1 ≤ da ∧ da ≤ 31 ∧ ho ≤ 23 ∧ mi ≤ 59 ∧ se ≤ 59 then
        some ((digitsToNat [y1, y2, y3, y4, m1, m2, d1, d2, h1, h2, n1, n2, s1, s2] : Int))
      else none
    else none
  | _ => none

/-! ## Currency and field validators (`TransactionCSVRow` of `schemas.py`) -/

/-- The closed currency enumeration of `schemas.py`. -/
inductive CurrencyEnum where
  | PLN
  | EUR
  | USD
deriving DecidableEq, Repr

/-- String value of each enumeration member. -/
def CurrencyEnum.value : CurrencyEnum → String
  | .PLN => "PLN"
  | .EUR => "EUR"
  | .USD => "USD"

/-- Look up a string among the `CurrencyEnum` member values. -/
def currencyFromString (s : String) : Option CurrencyEnum :=
  if s = "PLN" then some .PLN
  else if s = "EUR" then some .EUR
  else if s = "USD" then some .USD
  else none

/-- Validate the `currency` field: the raw string is whitespace-stripped (model
configuration `str_strip_whitespace=True`) and must equal one of the
enumeration values `PLN`, `EUR`, `USD`. -/
def validateCurrency (s : String) : Except String CurrencyEnum :=
  match currencyFromString (stripSpaces s) with
  | some c => .ok c
  | none => .error "Input should be PLN, EUR or USD"

/-- Validate the `amount` field: it must parse as a decimal, be strictly
greater than zero (`Field(gt=0)`), and carry at most 2 digits after the
decimal point (`decimal_places=2` together with the `validate_amount`
field validator, which rejects `as_tuple().exponent < -2`). -/
def validateAmount (s : String) : Except String DecimalRep :=
  match parseDecimal s with
  | none => .error "Input should be a valid decimal"
  | some d =>
    if d.mantissa ≤ 0 then .error "Input should be greater than 0"
    else if 2 < d.scale then .error "Amount must have at most 2 decimal places"
    else .ok d

/-- Validate the `quantity` field: it must parse as an integer and be strictly
greater than zero (`Field(gt=0)`). -/
def validateQuantity (s : String) : Except String Int :=
  match parseIntStr s with
  | none => .error "Input should be a valid integer"
  | some n =>
    if n ≤ 0 then .error "Input should be greater than 0" else .ok n

/-- One raw CSV data row: the seven required fields as uninterpreted strings,
exactly as `csv.DictReader` hands them to `TransactionCSVRow(**row)`. -/
structure RawRow where
  transaction_id : String
  timestamp : String
  amount : String
  currency : String
  customer_id : String
  product_id : String
  quantity : String
deriving DecidableEq, Repr

/-- A validated row, i.e. the `TransactionCreate` schema built from a
successfully validated `TransactionCSVRow`. -/
structure TransactionCreate where
  transaction_id : Uuid
  timestamp : Int
  amount : DecimalRep
  currency : CurrencyEnum
  customer_id : Uuid
  product_id : Uuid
  quantity : Int
deriving DecidableEq, Repr

/-- Turn an `Option` result into an `Except` with the given failure message. -/
def req {α : Type} (o : Option α) (msg : String) : Except String α :=
  match o with
  | some a => .ok a
  | none => .error msg

/-- Validation of one raw row against `TransactionCSVRow`: every identifier
must parse as a UUID, the timestamp as an ISO-8601 date-time, and the amount,
currency and quantity fields must satisfy their constraints.  All raw string
fields are whitespace-stripped first (`str_strip_whitespace=True`). -/
def validateRowFields (r : RawRow) : Except String TransactionCreate := do
  let tid ← req (parseUUID r.transaction_id) "transaction_id: Input should be a valid UUID"
  let ts ← req (parseTimestamp r.timestamp) "timestamp: Input should be a valid datetime"
  let amt ← validateAmount r.amount
  let cur ← validateCurrency r.currency
  let cid ← req (parseUUID r.customer_id) "customer_id: Input should be a valid UUID"
  let pid ← req (parseUUID r.product_id) "product_id: Input should be a valid UUID"
  let qty ← validateQuantity r.quantity
  return { transaction_id := tid, timestamp := ts, amount := amt, currency := cur,
           customer_id := cid, product_id := pid, quantity := qty }

/-! ## Stored entities and the database state -/

/-- A persisted transaction row (`Transaction` model of `models.py`).  The
`amount` column is `DECIMAL(10, 2)`, so the stored monetary value is an exact
integer number of hundredths (`amountCenti`). -/
structure StoredTransaction where
  transaction_id : Uuid
  timestamp : Int
  amountCenti : Int
  currency : CurrencyEnum
  customer_id : Uuid
  product_id : Uuid
  quantity : Int
deriving DecidableEq, Repr

/-- Value of a validated amount in hundredths.  Validated amounts have
`scale ≤ 2`, so this is exact. -/
def decToCenti (d : DecimalRep) : Int :=
  d.mantissa * (10 : Int) ^ (2 - d.scale)

/-- Materialize a validated row as the persisted transaction record. -/
def TransactionCreate.toStored (t : TransactionCreate) : StoredTransaction :=
  { transaction_id := t.transaction_id, timestamp := t.timestamp,
    amountCenti := decToCenti t.amount, currency := t.currency,
    customer_id := t.customer_id, product_id := t.product_id,
    quantity := t.quantity }

/-- The relational store: transaction rows plus the customer and product
entity tables (entities carry no attributes beyond their identifier). -/
structure DB where
  txns : List StoredTransaction
  customers : List Uuid
  products : List Uuid
deriving DecidableEq, Repr

/-- `TransactionRepository.exists`: whether a transaction with the identifier
is already persisted. -/
def txExists (txns : List StoredTransaction) (id : Uuid) : Bool :=
  txns.any (fun t => t.transaction_id = id)

/-- `TransactionRepository.create_bulk` followed by `session.flush()`: all the
new rows are inserted in one statement; the primary-key uniqueness constraint
on `transaction_id` raises an `IntegrityError` if any new identifier collides
with an already-persisted row or with another row of the same batch, and then
nothing is inserted (the flush fails as a whole). -/
def create_bulk (txns : List StoredTransaction) (ts : List TransactionCreate) :
    Except String (List StoredTransaction) :=
  if (ts.map (fun t => t.transaction_id)).Nodup
      ∧ ∀ t ∈ ts, txExists txns t.transaction_id = false then
    .ok (txns ++ ts.map TransactionCreate.toStored)
  else
    .error "IntegrityError: duplicate key value violates unique constraint"

/-- `CustomerRepository.get_or_create_bulk` (and the textually identical
`ProductRepository.get_or_create_bulk`): read the existing entities from the
read-time snapshot `readStore`, then insert the missing ones with a flush
against the insert-time state `insertStore`.  The two states differ only when
a concurrent writer created an entity between the read and the insert; in that
case the flush raises a uniqueness `IntegrityError`, and the source contains
no handler for it, so the error propagates.  Returns the resulting entity
table. -/
def get_or_create_bulk (readStore insertStore : List Uuid) (ids : List Uuid) :
    Except String (List Uuid) :=
  let missing := ids.filter (fun i => i ∉ readStore)
  if missing.isEmpty then .ok insertStore
  else if missing.any (fun i => insertStore.contains i) then
    .error "IntegrityError: duplicate key value violates unique constraint"
  else .ok (insertStore ++ missing)

/-! ## CSV parsing and per-row processing (`ImportService._parse_csv`) -/

/-- A per-row validation error (`ValidationError` of `schemas.py`). -/
structure ValidationErr where
  row_number : Nat
  field : Option String := none
  error : String
  raw_data : Option RawRow := none
deriving DecidableEq, Repr

/-- An uploaded CSV file after `content.decode("utf-8-sig")` and
`csv.DictReader`: `decodable` is false when the byte content is not valid
UTF-8 (the decode raises), `fieldnames` is `none` for an empty file, and
`rows` are the data rows keyed by the required headers. -/
structure CsvFile where
  decodable : Bool := true
  fieldnames : Option (List String)
  rows : List RawRow
deriving DecidableEq, Repr

/-- The required header names of `_parse_csv`. -/
def requiredHeaders : List String :=
  ["transaction_id", "timestamp", "amount", "currency",
   "customer_id", "product_id", "quantity"]

/-- Headers required but absent from the first line. -/
def missingHeaders (fieldnames : List String) : List String :=
  requiredHeaders.filter (fun h => h ∉ fieldnames)

/-- Processing of one data row inside the row loop of `_parse_csv`: validate
the fields, then consult `TransactionRepository.exists`; a duplicate is
rejected with a `ValidationError` on the `transaction_id` field naming the
conflicting identifier, a field failure with the validation message. -/
def processRow (txns : List StoredTransaction) (rowNum : Nat) (r : RawRow) :
    Sum ValidationErr TransactionCreate :=
  match validateRowFields r with
  | .error msg =>
    .inl { row_number := rowNum, field := none, error := msg, raw_data := some r }
  | .ok t =>
    if txExists txns t.transaction_id then
      .inl { row_number := rowNum, field := some "transaction_id",
             error := "Transaction " ++ toString t.transaction_id ++ " already exists",
             raw_data := some r }
    else
      .inr t

/-- The row loop of `_parse_csv`: rows are numbered from `rowNum` (the loop
enumerates from 2, the header being line 1) and partitioned, in order, into
validated rows and per-row errors. -/
def parseRows (txns : List StoredTransaction) (rowNum : Nat) :
    List RawRow → List TransactionCreate × List ValidationErr
  | [] => ([], [])
  | r :: rs =>
    let rest := parseRows txns (rowNum + 1) rs
    match processRow txns rowNum r with
    | .inl e => (rest.1, e :: rest.2)
    | .inr t => (t :: rest.1, rest.2)

/-- `ImportService._parse_csv`: decode the payload, emit a single synthetic
row-0 error on an empty file or on missing required headers (returning zero
data rows), and otherwise run every data row through validation and the
duplicate check.  Returns the valid rows, the error list and the total number
of data rows; an undecodable payload raises. -/
def parseCsv (txns : List StoredTransaction) (file : CsvFile) :
    Except String (List TransactionCreate × List ValidationErr × Nat) :=
  if ¬ file.decodable then .error "UnicodeDecodeError" else
  match file.fieldnames with
  | none => .ok ([], [{ row_number := 0, error := "Empty CSV file" }], 0)
  | some fieldnames =>
    if missingHeaders fieldnames ≠ [] then
      .ok ([], [{ row_number := 0,
                  error := "Missing required headers: "
                    ++ String.intercalate ", " (missingHeaders fieldnames) }], 0)
    else
      .ok ((parseRows txns 2 file.rows).1, (parseRows txns 2 file.rows).2,
           file.rows.length)

/-! ## Import orchestration (`ImportService.import_csv`) -/

/-- Batch statuses of the `ImportBatch` model. -/
inductive BatchStatus where
  | pending
  | processing
  | completed
  | failed
deriving DecidableEq, Repr

/-- Position of a status along the forward order
`pending → processing → {completed, failed}`. -/
def statusRank : BatchStatus → Nat
  | .pending => 0
  | .processing => 1
  | .completed => 2
  | .failed => 2

/-- The response returned by a successful `import_csv` call
(`FileUploadResponse`, with the error entries mapped to row/error/field
string triples). -/
structure ErrorEntry where
  row : String
  error : String
  field : String
deriving DecidableEq, Repr

structure FileUploadResponse where
  message : String
  processed_count : Nat
  error_count : Nat
  errors : List ErrorEntry
deriving DecidableEq, Repr

/-- The error-entry mapping performed when building `FileUploadResponse`. -/
def toErrorEntry (e : ValidationErr) : ErrorEntry :=
  { row := toString e.row_number, error := e.error, field := e.field.getD "general" }

def mkResponse (valid : List TransactionCreate) (errors : List ValidationErr) :
    FileUploadResponse :=
  { message := "Successfully processed " ++ toString valid.length ++ " transactions",
    processed_count := valid.length,
    error_count := errors.length,
    errors := errors.map toErrorEntry }

/-- `ImportService._process_transactions`: bulk get-or-create the referenced
customers and products (over the deduplicated identifier sets), then bulk
insert the validated transactions.  Sequential execution: the read snapshot
and the insert-time state of each entity table coincide. -/
def process_transactions (db : DB) (valid : List TransactionCreate) :
    Except String DB := do
  let cs ← get_or_create_bulk db.customers db.customers
    ((valid.map (fun t => t.customer_id)).dedup)
  let ps ← get_or_create_bulk db.products db.products
    ((valid.map (fun t => t.product_id)).dedup)
  let txns ← create_bulk db.txns valid
  return { txns := txns, customers := cs, products := ps }

/-- The outcome of one `import_csv` call: the returned value (or the raised
error), the database state visible after the call, and the batch statuses
assigned by the `ImportBatchRepository.update_status` calls, in order (the
batch itself is created in status `pending` beforehand). -/
structure ImportOutcome where
  result : Except String FileUploadResponse
  db : DB
  statusUpdates : List BatchStatus
deriving Repr

/-- Modelled from the spec: the session/commit discipline of the missing
`app/db/session.py` module (only `session2.py` is present; `dependencies.py`
imports `app.db.session`).  Per the spec, steps 4-5 run inside one atomic
unit of work with commit on success and rollback when an error escapes, so a
failing bulk insert leaves the store exactly as it was.

`ImportService.import_csv`: create the batch (`pending`), parse the file (a
raised decode error marks the batch `failed` and propagates), mark the batch
`processing`, process the valid transactions if any, and mark the batch
`completed` with the final counts — or `failed` when processing raised, in
which case the error propagates to the caller and the store is rolled back. -/
def import_csv (db : DB) (file : CsvFile) : ImportOutcome :=
  match parseCsv db.txns file with
  | .error e => { result := .error e, db := db, statusUpdates := [.failed] }
  | .ok (valid, errors, _total) =>
    if valid.isEmpty then
      { result := .ok (mkResponse valid errors), db := db,
        statusUpdates := [.processing, .completed] }
    else
      match process_transactions db valid with
      | .error e =>
        { result := .error e, db := db, statusUpdates := [.processing, .failed] }
      | .ok db' =>
        { result := .ok (mkResponse valid errors), db := db',
          statusUpdates := [.processing, .completed] }

/-- The batch's status history during one import call: `pending` at creation
followed by every status assigned by an update. -/
def statusTrace (db : DB) (file : CsvFile) : List BatchStatus :=
  .pending :: (import_csv db file).statusUpdates

/-! ## Reporting (`TransactionRepository` aggregates and `ReportService`) -/

/-- The SQL `case` expression of `get_customer_summary` / `get_product_summary`
in `repositories.py`, mapping a currency to its rate against PLN, in tenths:
PLN → 1.0, EUR → 4.3, USD → 4.0 (the `else_` arm, 1.0, is unreachable for the
closed enumeration). -/
def caseRateTenths (c : CurrencyEnum) : Int :=
  if c = .PLN then 10
  else if c = .EUR then 43
  else if c = .USD then 40
  else 10

/-- The fixed `EXCHANGE_RATES` table of `schemas.py`, in tenths of PLN. -/
def EXCHANGE_RATES (c : CurrencyEnum) : Int :=
  match c with
  | .PLN => 10
  | .EUR => 43
  | .USD => 40

/-- The SQL filter built from the optional date bounds: `timestamp >= start`
is appended when a start date is supplied and `timestamp <= end` when an end
date is supplied, so a window with both bounds is inclusive on both ends. -/
def inWindow (startDate endDate : Option Int) (ts : Int) : Bool :=
  (match startDate with
   | none => true
   | some a => a ≤ ts)
  && (match endDate with
      | none => true
      | some b => ts ≤ b)

/-- The `sum(amount * case(...))` aggregate over a row set, in thousandths of
PLN (exact, since amounts are hundredths and rates tenths). -/
def sumPlnMilli (rows : List StoredTransaction) : Int :=
  (rows.map (fun t => t.amountCenti * caseRateTenths t.currency)).sum

/-- Quantization of a thousandths-of-PLN total to hundredths with
`ROUND_HALF_UP` (ties round away from zero), i.e.
`Decimal.quantize(Decimal("0.01"), rounding=ROUND_HALF_UP)`. -/
def roundHalfUpMilliToCenti (n : Int) : Int :=
  if 0 ≤ n then ((n.toNat + 5) / 10 : Nat)
  else -((((-n).toNat + 5) / 10 : Nat) : Int)

/-- The SQL `max(timestamp)` aggregate (`NULL`, i.e. `none`, on an empty row
set). -/
def maxTimestamp (rows : List StoredTransaction) : Option Int :=
  rows.foldl
    (fun acc t =>
      match acc with
      | none => some t.timestamp
      | some m => some (max m t.timestamp))
    none

/-- The customer summary record (`CustomerSummaryResponse`), monetary total in
hundredths of PLN. -/
structure CustomerSummary where
  customer_id : Uuid
  total_amount_pln : Int
  unique_products_count : Nat
  last_transaction_date : Option Int
deriving DecidableEq, Repr

/-- The product summary record (`ProductSummaryResponse`), revenue in
hundredths of PLN. -/
structure ProductSummary where
  product_id : Uuid
  total_quantity_sold : Int
  total_revenue_pln : Int
  unique_customers_count : Nat
deriving DecidableEq, Repr

/-- The rows selected by the customer-summary aggregation query. -/
def customerRows (txns : List StoredTransaction) (cid : Uuid)
    (startDate endDate : Option Int) : List StoredTransaction :=
  txns.filter (fun t => t.customer_id = cid && inWindow startDate endDate t.timestamp)

/-- The rows selected by the product-summary aggregation query. -/
def productRows (txns : List StoredTransaction) (pid : Uuid)
    (startDate endDate : Option Int) : List StoredTransaction :=
  txns.filter (fun t => t.product_id = pid && inWindow startDate endDate t.timestamp)

/-- `TransactionRepository.get_customer_summary`: aggregate the customer's
transactions in the optional date window — PLN-converted sum (`NULL` coalesced
to 0, then quantized half-up to 2 decimal places), count of distinct product
identifiers (coalesced to 0), and latest timestamp. -/
def TransactionRepository.get_customer_summary (txns : List StoredTransaction)
    (cid : Uuid) (startDate endDate : Option Int) : CustomerSummary :=
  let rows := customerRows txns cid startDate endDate
  { customer_id := cid,
    total_amount_pln := roundHalfUpMilliToCenti (sumPlnMilli rows),
    unique_products_count := (rows.map (fun t => t.product_id)).dedup.length,
    last_transaction_date := maxTimestamp rows }

/-- `TransactionRepository.get_product_summary`: aggregate the product's
transactions in the optional date window — quantity sum, PLN-converted revenue
(quantized half-up), and count of distinct customer identifiers. -/
def TransactionRepository.get_product_summary (txns : List StoredTransaction)
    (pid : Uuid) (startDate endDate : Option Int) : ProductSummary :=
  let rows := productRows txns pid startDate endDate
  { product_id := pid,
    total_quantity_sold := (rows.map (fun t => t.quantity)).sum,
    total_revenue_pln := roundHalfUpMilliToCenti (sumPlnMilli rows),
    unique_customers_count := (rows.map (fun t => t.customer_id)).dedup.length }

/-- `ReportService.get_customer_summary`: `none` (surfaced as 404 NotFound by
the router) exactly when the customer has no entity row, otherwise the
aggregated summary. -/
def ReportService.get_customer_summary (db : DB) (cid : Uuid)
    (startDate endDate : Option Int) : Option CustomerSummary :=
  if db.customers.contains cid then
    some (TransactionRepository.get_customer_summary db.txns cid startDate endDate)
  else none

/-- `ReportService.get_product_summary`: `none` exactly when the product has
no entity row, otherwise the aggregated summary. -/
def ReportService.get_product_summary (db : DB) (pid : Uuid)
    (startDate endDate : Option Int) : Option ProductSummary :=
  if db.products.contains pid then
    some (TransactionRepository.get_product_summary db.txns pid startDate endDate)
  else none

/-- The total as the spec words it: multiply each row's amount by its
currency's rate from the fixed `EXCHANGE_RATES` table, sum, then round the
total to 2 decimal places using round-half-up.  Stated over the same exact
integer encodings (hundredths and tenths); to be compared with the
`case`-expression aggregate of the repository query. -/
def specTotalCenti (rows : List StoredTransaction) : Int :=
  roundHalfUpMilliToCenti
    ((rows.map (fun t => t.amountCenti * EXCHANGE_RATES t.currency)).sum)


/-! ## Concrete sample data (used by the closed witness theorems) -/

/-- A well-formed CSV data row. -/
def sampleRow : RawRow :=
  { transaction_id := "00000000-0000-0000-0000-000000000001",
    timestamp := "2024-01-01T10:00:00", amount := "10.00", currency := "PLN",
    customer_id := "00000000-0000-0000-0000-000000000004",
    product_id := "00000000-0000-0000-0000-000000000005", quantity := "1" }

/-- The validated form of `sampleRow`. -/
def sampleCreate : TransactionCreate :=
  { transaction_id := 1, timestamp := 20240101100000, amount := ⟨1000, 2⟩,
    currency := .PLN, customer_id := 4, product_id := 5, quantity := 1 }

/-- A second well-formed row carrying the same transaction identifier as
`sampleRow`. -/
def sampleRowB : RawRow :=
  { transaction_id := "00000000-0000-0000-0000-000000000001",
    timestamp := "2024-01-02T00:00:00", amount := "7.50", currency := "EUR",
    customer_id := "00000000-0000-0000-0000-000000000004",
    product_id := "00000000-0000-0000-0000-000000000006", quantity := "2" }

/-- The validated form of `sampleRowB`. -/
def sampleCreateB : TransactionCreate :=
  { transaction_id := 1, timestamp := 20240102000000, amount := ⟨750, 2⟩,
    currency := .EUR, customer_id := 4, product_id := 6, quantity := 2 }

/-- A file whose two rows share one transaction identifier. -/
def fileDup : CsvFile := ⟨true, some requiredHeaders, [sampleRow, sampleRowB]⟩

/-- A store already holding the transactions of customer 1:
100.00 PLN and 10.00 EUR. -/
def dbC2 : DB :=
  { txns := [{ transaction_id := 1, timestamp := 5, amountCenti := 10000,
               currency := .PLN, customer_id := 1, product_id := 20, quantity := 1 },
             { transaction_id := 2, timestamp := 6, amountCenti := 1000,
               currency := .EUR, customer_id := 1, product_id := 21, quantity := 1 }],
    customers := [1], products := [20, 21] }

/-- A store whose only transaction lies outside the date window [0, 10]. -/
def dbC5 : DB :=
  { txns := [{ transaction_id := 9, timestamp := 100, amountCenti := 500,
               currency := .USD, customer_id := 1, product_id := 2, quantity := 1 }],
    customers := [1], products := [2] }

/-- A store already holding the persisted form of `sampleRow`. -/
def dbDup : DB := ⟨[sampleCreate.toStored], [4], [5]⟩

/-! ## Helper lemmas -/

theorem except_bind_ok {α β : Type} {x : Except String α} {f : α → Except String β}
    {b : β} (h : x.bind f = .ok b) : ∃ a, x = .ok a ∧ f a = .ok b := by
  cases x with
  | error e => simp [Except.bind] at h
  | ok a => exact ⟨a, rfl, by simpa [Except.bind] using h⟩

theorem get_or_create_bulk_self_ok (s ids : List Uuid) :
    ∃ s', get_or_create_bulk s s ids = .ok s' := by
  unfold get_or_create_bulk
  cases hl : (ids.filter (fun i => i ∉ s)) with
  | nil => exact ⟨s, by simp [hl]⟩
  | cons a l =>
    have hall : ∀ x ∈ a :: l, x ∉ s := by
      intro x hx
      have hmem := List.mem_filter.mp (hl ▸ hx)
      simpa using hmem.2
    refine ⟨s ++ a :: l, ?_⟩
    simp [hl]
    exact ⟨hall a (List.mem_cons_self a l), fun x hx => hall x (List.mem_cons_of_mem a hx)⟩

theorem create_bulk_ok_eq (txns : List StoredTransaction)
    (ts : List TransactionCreate) (out : List StoredTransaction)
    (h : create_bulk txns ts = .ok out) :
    out = txns ++ ts.map TransactionCreate.toStored := by
  unfold create_bulk at h
  split at h
  · exact (Except.ok.injEq _ _).mp h |>.symm
  · cases h

theorem process_transactions_create_bulk_error (db : DB)
    (valid : List TransactionCreate) (msg : String)
    (hfail : create_bulk db.txns valid = .error msg) :
    process_transactions db valid = .error msg := by
  obtain ⟨cs, hcs⟩ :=
    get_or_create_bulk_self_ok db.customers ((valid.map (fun t => t.customer_id)).dedup)
  obtain ⟨ps, hps⟩ :=
    get_or_create_bulk_self_ok db.products ((valid.map (fun t => t.product_id)).dedup)
  simp [process_transactions, hcs, hps, hfail, Except.bind, Bind.bind]

theorem process_transactions_ok_txns (db : DB) (valid : List TransactionCreate)
    (db' : DB) (h : process_transactions db valid = .ok db') :
    db'.txns = db.txns ++ valid.map TransactionCreate.toStored := by
  simp only [process_transactions, Bind.bind] at h
  obtain ⟨cs, _, h⟩ := except_bind_ok h
  obtain ⟨ps, _, h⟩ := except_bind_ok h
  obtain ⟨txns, htx, h⟩ := except_bind_ok h
  have := create_bulk_ok_eq _ _ _ htx
  cases h
  simpa using this

/-- Every import call can only extend the transaction table: whatever the
outcome, the initially persisted rows remain, unchanged and in order. -/
theorem import_csv_txns_extend (db : DB) (file : CsvFile) :
    ∃ tail, (import_csv db file).db.txns = db.txns ++ tail := by
  unfold import_csv
  split
  · exact ⟨[], by simp⟩
  · split
    · exact ⟨[], by simp⟩
    · split
      · exact ⟨[], by simp⟩
      · next db' hdb' =>
        exact ⟨_, by simpa using process_transactions_ok_txns _ _ _ hdb'⟩

/-- The row loop distributes over concatenation, the second part being
processed with the row counter advanced past the first. -/
theorem parseRows_append (txns : List StoredTransaction) (n : Nat)
    (xs ys : List RawRow) :
    parseRows txns n (xs ++ ys) =
      ((parseRows txns n xs).1 ++ (parseRows txns (n + xs.length) ys).1,
       (parseRows txns n xs).2 ++ (parseRows txns (n + xs.length) ys).2) := by
  induction xs generalizing n with
  | nil => simp [parseRows]
  | cons r rs ih =>
    simp only [List.cons_append, parseRows, List.length_cons]
    have harith : n + 1 + rs.length = n + (rs.length + 1) := by omega
    cases processRow txns n r <;> simp [List.append_eq, ih (n + 1), harith]

/-- Rows surviving the row loop passed the duplicate check: their identifiers
are not yet persisted. -/
theorem parseRows_valid_not_exists (txns : List StoredTransaction) (n : Nat)
    (rows : List RawRow) :
    ∀ t ∈ (parseRows txns n rows).1, txExists txns t.transaction_id = false := by
  induction rows generalizing n with
  | nil => simp [parseRows]
  | cons r rs ih =>
    intro t ht
    simp only [parseRows] at ht
    cases hpr : processRow txns n r with
    | inl e =>
      rw [hpr] at ht
      exact ih (n + 1) t ht
    | inr t0 =>
      rw [hpr] at ht
      rcases List.mem_cons.mp ht with rfl | hmem
      · unfold processRow at hpr
        split at hpr
        · cases hpr
        · next t1 hv =>
          split at hpr
          · cases hpr
          · next hex =>
            cases hpr
            simpa using hex
      · exact ih (n + 1) t hmem

/-- Inversion of a successful `_parse_csv`: the valid rows all passed the
duplicate check against the persisted store. -/
theorem parseCsv_ok_valid_not_exists (txns : List StoredTransaction)
    (file : CsvFile) (valid : List TransactionCreate)
    (errors : List ValidationErr) (total : Nat)
    (h : parseCsv txns file = .ok (valid, errors, total)) :
    ∀ t ∈ valid, txExists txns t.transaction_id = false := by
  unfold parseCsv at h
  split at h
  · cases h
  · split at h
    · cases h
      simp
    · split at h
      · cases h
        simp
      · cases h
        exact parseRows_valid_not_exists txns 2 file.rows

/-- Bridge between the boolean `List.contains` used by the embedded queries
and propositional membership. -/
theorem contains_true_iff (l : List Uuid) (a : Uuid) :
    l.contains a = true ↔ a ∈ l :=
  ⟨List.mem_of_elem_eq_true, List.elem_eq_true_of_mem⟩

/-- Negative form of `contains_true_iff`. -/
theorem contains_false_iff (l : List Uuid) (a : Uuid) :
    l.contains a = false ↔ a ∉ l := by
  rw [← Bool.not_eq_true, not_iff_not]
  exact contains_true_iff l a

/-- An accepted amount is strictly positive with at most 2 decimal digits. -/
theorem validateAmount_ok (s : String) (d : DecimalRep)
    (h : validateAmount s = .ok d) : 0 < d.mantissa ∧ d.scale ≤ 2 := by
  unfold validateAmount at h
  split at h
  · cases h
  · split at h
    · cases h
    · split at h
      · cases h
      · next hm hs =>
        cases h
        constructor
        · omega
        · omega

/-- An accepted quantity is strictly positive. -/
theorem validateQuantity_ok (s : String) (n : Int)
    (h : validateQuantity s = .ok n) : 0 < n := by
  unfold validateQuantity at h
  split at h
  · cases h
  · split at h
    · cases h
    · next hm =>
      cases h
      omega

/-! ## Claim theorems -/

/-- Claim C1: if, after validation and duplicate-checking produced a nonempty
set of surviving rows, the bulk insert raises, then the import call leaves the
store exactly as it was (no partial commit: none of the batch's rows is
persisted) and surfaces a single batch-level failure (a raised error, not an
ok-response with row-level errors). -/
theorem bulk_insert_failure_atomic (db : DB) (file : CsvFile)
    (valid : List TransactionCreate) (errors : List ValidationErr)
    (total : Nat) (msg : String)
    (hparse : parseCsv db.txns file = .ok (valid, errors, total))
    (hval : valid ≠ [])
    (hfail : create_bulk db.txns valid = .error msg) :
    (import_csv db file).db = db ∧
    (import_csv db file).result = .error msg ∧
    ∀ t ∈ valid, txExists (import_csv db file).db.txns t.transaction_id = false := by
  have hproc := process_transactions_create_bulk_error db valid msg hfail
  have hempty : valid.isEmpty = false := by
    cases valid
    · exact absurd rfl hval
    · rfl
  have hrun : import_csv db file =
      { result := .error msg, db := db, statusUpdates := [.processing, .failed] } := by
    unfold import_csv
    rw [hparse]
    simp [hempty, hproc]
  refine ⟨by rw [hrun], by rw [hrun], ?_⟩
  intro t ht
  rw [hrun]
  exact parseCsv_ok_valid_not_exists db.txns file valid errors total hparse t ht

/-- Witness for C1: importing a two-row file whose rows share one identifier
into an empty store fails the bulk insert and persists nothing. -/
theorem bulk_insert_failure_atomic_witness :
    (import_csv ⟨[], [], []⟩ fileDup).db = ⟨[], [], []⟩ ∧
    (import_csv ⟨[], [], []⟩ fileDup).result =
      .error "IntegrityError: duplicate key value violates unique constraint" ∧
    ∀ t ∈ [sampleCreate, sampleCreateB],
      txExists (import_csv ⟨[], [], []⟩ fileDup).db.txns t.transaction_id = false :=
  bulk_insert_failure_atomic ⟨[], [], []⟩ fileDup [sampleCreate, sampleCreateB] [] 2
    "IntegrityError: duplicate key value violates unique constraint"
    rfl (by decide) rfl

/-- Claim C2: for every customer with an entity row, `customerSummary` with no
date filter returns a summary whose total equals the sum of the customer's
transaction amounts times the fixed `EXCHANGE_RATES` (PLN 1.0, EUR 4.3,
USD 4.0), rounded half-up to 2 decimal places; in particular the transactions
100.00 PLN and 10.00 EUR total 143.00 PLN. -/
theorem customer_summary_total_matches_rate_table (db : DB) (cid : Uuid)
    (h : db.customers.contains cid = true) :
    (∃ s, ReportService.get_customer_summary db cid none none = some s ∧
      s.total_amount_pln =
        specTotalCenti (db.txns.filter (fun t => t.customer_id = cid))) ∧
    ReportService.get_customer_summary dbC2 1 none none =
      some { customer_id := 1, total_amount_pln := 14300,
             unique_products_count := 2, last_transaction_date := some 6 } := by
  constructor
  · refine ⟨TransactionRepository.get_customer_summary db.txns cid none none, ?_, ?_⟩
    · simp [ReportService.get_customer_summary, List.mem_of_elem_eq_true h]
    · have hrate : ∀ c, caseRateTenths c = EXCHANGE_RATES c := by
        intro c; cases c <;> rfl
      simp [TransactionRepository.get_customer_summary, specTotalCenti, customerRows,
            sumPlnMilli, inWindow, hrate]
  · decide

/-- Witness for C2 at the concrete store `dbC2`. -/
theorem customer_summary_total_matches_rate_table_witness :
    (dbC2.customers.contains 1 = true) ∧
    (∃ s, ReportService.get_customer_summary dbC2 1 none none = some s ∧
      s.total_amount_pln =
        specTotalCenti (dbC2.txns.filter (fun t => t.customer_id = 1))) :=
  ⟨by decide, (customer_summary_total_matches_rate_table dbC2 1 (by decide)).1⟩

/-- Claim C3: a decodable file that is empty or whose header line misses a
required header produces exactly one error, at row 0, with zero valid rows and
zero total rows; the store is untouched and the returned response reports zero
processed rows and that single row-0 error. -/
theorem header_failure_single_error (db : DB) (file : CsvFile)
    (hdec : file.decodable = true)
    (hbad : file.fieldnames = none ∨
      ∃ fn, file.fieldnames = some fn ∧ missingHeaders fn ≠ []) :
    (∃ e, parseCsv db.txns file = .ok ([], [e], 0) ∧ e.row_number = 0) ∧
    (import_csv db file).db = db ∧
    (∃ resp, (import_csv db file).result = .ok resp ∧
      resp.processed_count = 0 ∧ resp.error_count = 1 ∧
      resp.errors.map ErrorEntry.row = ["0"]) := by
  obtain ⟨e, hp, he⟩ :
      ∃ e, parseCsv db.txns file = .ok ([], [e], 0) ∧ e.row_number = 0 := by
    rcases hbad with hnone | ⟨fn, hfn, hmiss⟩
    · exact ⟨{ row_number := 0, error := "Empty CSV file" },
        by simp [parseCsv, hdec, hnone], rfl⟩
    · exact ⟨{ row_number := 0,
               error := "Missing required headers: "
                 ++ String.intercalate ", " (missingHeaders fn) },
        by simp [parseCsv, hdec, hfn, hmiss], rfl⟩
  have hrun : import_csv db file =
      { result := .ok (mkResponse [] [e]), db := db,
        statusUpdates := [.processing, .completed] } := by
    unfold import_csv
    rw [hp]
    rfl
  refine ⟨⟨e, hp, he⟩, by rw [hrun], ?_⟩
  refine ⟨mkResponse [] [e], by rw [hrun], rfl, rfl, ?_⟩
  simp only [mkResponse, toErrorEntry, List.map_cons, List.map_nil, he]
  rfl

/-- Witness for C3: a file missing six of the seven required headers, whose
single data row would otherwise be valid. -/
theorem header_failure_single_error_witness :
    (∃ e, parseCsv (DB.mk [] [] []).txns ⟨true, some ["transaction_id"], [sampleRow]⟩ =
        .ok ([], [e], 0) ∧ e.row_number = 0) ∧
    (import_csv ⟨[], [], []⟩ ⟨true, some ["transaction_id"], [sampleRow]⟩).db =
      ⟨[], [], []⟩ ∧
    (∃ resp, (import_csv ⟨[], [], []⟩ ⟨true, some ["transaction_id"], [sampleRow]⟩).result =
        .ok resp ∧ resp.processed_count = 0 ∧ resp.error_count = 1 ∧
      resp.errors.map ErrorEntry.row = ["0"]) :=
  header_failure_single_error ⟨[], [], []⟩ ⟨true, some ["transaction_id"], [sampleRow]⟩
    rfl (Or.inr ⟨["transaction_id"], rfl, by decide⟩)

/-- Claim C4: a well-formed row whose identifier is already persisted is
reported as a `ValidationError` on field `transaction_id` whose message names
the conflicting identifier and which carries the row's number; the row joins
the error list instead of the valid list, the rows before and after it are
processed exactly as they would be on their own, and every previously stored
transaction survives the import unchanged. -/
theorem duplicate_row_reported_not_inserted (db : DB) (fn : List String)
    (pre post : List RawRow) (r : RawRow) (t : TransactionCreate)
    (hfn : missingHeaders fn = [])
    (hv : validateRowFields r = .ok t)
    (hdup : txExists db.txns t.transaction_id = true) :
    parseCsv db.txns ⟨true, some fn, pre ++ r :: post⟩ =
      .ok ((parseRows db.txns 2 pre).1 ++ (parseRows db.txns (2 + pre.length + 1) post).1,
           (parseRows db.txns 2 pre).2 ++
             { row_number := 2 + pre.length, field := some "transaction_id",
               error := "Transaction " ++ toString t.transaction_id ++ " already exists",
               raw_data := some r } ::
             (parseRows db.txns (2 + pre.length + 1) post).2,
           (pre ++ r :: post).length) ∧
    (∀ t0 ∈ db.txns, t0 ∈ (import_csv db ⟨true, some fn, pre ++ r :: post⟩).db.txns) := by
  constructor
  · have hpr : processRow db.txns (2 + pre.length) r = .inl
        { row_number := 2 + pre.length, field := some "transaction_id",
          error := "Transaction " ++ toString t.transaction_id ++ " already exists",
          raw_data := some r } := by
      unfold processRow
      rw [hv]
      simp [hdup]
    unfold parseCsv
    rw [parseRows_append]
    simp [hfn, parseRows, hpr]
  · intro t0 ht0
    obtain ⟨tail, htail⟩ := import_csv_txns_extend db ⟨true, some fn, pre ++ r :: post⟩
    rw [htail]
    exact List.mem_append_left _ ht0

/-- Witness for C4: re-importing `sampleRow` over a store already holding it. -/
theorem duplicate_row_reported_not_inserted_witness :
    parseCsv dbDup.txns ⟨true, some requiredHeaders, [] ++ sampleRow :: []⟩ =
      .ok ((parseRows dbDup.txns 2 []).1 ++
             (parseRows dbDup.txns (2 + List.length ([] : List RawRow) + 1) []).1,
           (parseRows dbDup.txns 2 []).2 ++
             { row_number := 2 + List.length ([] : List RawRow),
               field := some "transaction_id",
               error := "Transaction " ++ toString sampleCreate.transaction_id
                 ++ " already exists",
               raw_data := some sampleRow } ::
             (parseRows dbDup.txns (2 + List.length ([] : List RawRow) + 1) []).2,
           (([] : List RawRow) ++ sampleRow :: []).length) ∧
    (∀ t0 ∈ dbDup.txns,
      t0 ∈ (import_csv dbDup ⟨true, some requiredHeaders, [] ++ sampleRow :: []⟩).db.txns) :=
  duplicate_row_reported_not_inserted dbDup requiredHeaders [] [] sampleRow sampleCreate
    (by decide) rfl rfl

/-- Claim C5: the summary services return NotFound (`none`) exactly when the
referenced customer/product has no entity row; an existing entity whose
filtered transaction set is empty (for example an inclusive date window
containing none of its transactions) yields zero totals, zero unique counts
and, for customers, no last-transaction timestamp — never `none`. -/
theorem summary_not_found_iff_empty_window_zero (db : DB) (cid pid : Uuid)
    (sd ed : Option Int) :
    (ReportService.get_customer_summary db cid sd ed = none ↔
        db.customers.contains cid = false) ∧
    (ReportService.get_product_summary db pid sd ed = none ↔
        db.products.contains pid = false) ∧
    (db.customers.contains cid = true → customerRows db.txns cid sd ed = [] →
      ReportService.get_customer_summary db cid sd ed =
        some { customer_id := cid, total_amount_pln := 0,
               unique_products_count := 0, last_transaction_date := none }) ∧
    (db.products.contains pid = true → productRows db.txns pid sd ed = [] →
      ReportService.get_product_summary db pid sd ed =
        some { product_id := pid, total_quantity_sold := 0,
               total_revenue_pln := 0, unique_customers_count := 0 }) := by
  refine ⟨?_, ?_, ?_, ?_⟩
  · cases h : db.customers.contains cid with
    | false => simp [ReportService.get_customer_summary, (contains_false_iff _ _).mp h]
    | true => simp [ReportService.get_customer_summary, List.mem_of_elem_eq_true h]
  · cases h : db.products.contains pid with
    | false => simp [ReportService.get_product_summary, (contains_false_iff _ _).mp h]
    | true => simp [ReportService.get_product_summary, List.mem_of_elem_eq_true h]
  · intro h hrows
    simp [ReportService.get_customer_summary, List.mem_of_elem_eq_true h,
          TransactionRepository.get_customer_summary, hrows, sumPlnMilli,
          roundHalfUpMilliToCenti, maxTimestamp]
  · intro h hrows
    simp [ReportService.get_product_summary, List.mem_of_elem_eq_true h,
          TransactionRepository.get_product_summary, hrows, sumPlnMilli,
          roundHalfUpMilliToCenti, maxTimestamp]

/-- Witness for C5: in `dbC5`, customer 1 and product 2 exist but have no
transaction in the window [0, 10]; both summaries are zero, not NotFound. -/
theorem summary_not_found_iff_empty_window_zero_witness :
    ReportService.get_customer_summary dbC5 1 (some 0) (some 10) =
      some { customer_id := 1, total_amount_pln := 0,
             unique_products_count := 0, last_transaction_date := none } ∧
    ReportService.get_product_summary dbC5 2 (some 0) (some 10) =
      some { product_id := 2, total_quantity_sold := 0,
             total_revenue_pln := 0, unique_customers_count := 0 } :=
  ⟨(summary_not_found_iff_empty_window_zero dbC5 1 2 (some 0) (some 10)).2.2.1
      (by decide) (by decide),
   (summary_not_found_iff_empty_window_zero dbC5 1 2 (some 0) (some 10)).2.2.2
      (by decide) (by decide)⟩

/-- Claim C6 counterexample: the claim states that a duplicate-creation
conflict during bulk entity resolution is caught, recovered by re-reading the
now-existing entity, and never surfaced to the caller.  On the code this is
false: `get_or_create_bulk` has no handler, so when the entity with
identifier 7, missing from the read snapshot (empty), already exists at
insert time, the uniqueness error surfaces to the caller instead of a
successful result. -/
theorem get_or_create_bulk_race_counterexample :
    get_or_create_bulk [] [7] [7] =
      .error "IntegrityError: duplicate key value violates unique constraint" := rfl

/-- Claim C6 as amended: a duplicate-creation conflict raised by the storage
layer during bulk entity resolution is NOT caught — whenever some identifier
missing from the read snapshot already exists at insert time, the uniqueness
violation propagates to the caller (failing the batch); no re-read occurs. -/
theorem get_or_create_bulk_conflict_propagates (readStore insertStore ids : List Uuid)
    (hconf : ((ids.filter (fun i => i ∉ readStore)).any
        (fun i => insertStore.contains i)) = true) :
    get_or_create_bulk readStore insertStore ids =
      .error "IntegrityError: duplicate key value violates unique constraint" := by
  unfold get_or_create_bulk
  cases hl : ids.filter (fun i => i ∉ readStore) with
  | nil => rw [hl] at hconf; cases hconf
  | cons a l =>
    rw [hl] at hconf
    rcases List.any_eq_true.mp hconf with ⟨x, hx, hxmem⟩
    have hxin : x ∈ insertStore := List.mem_of_elem_eq_true hxmem
    simp only [hl]
    simp
    intro ha
    rcases List.mem_cons.mp hx with rfl | hx
    · exact absurd hxin ha
    · exact ⟨x, hx, hxin⟩

/-- Witness for the amended C6: entity 9 is created concurrently between the
read (snapshot [5]) and the insert (state [5, 9]); the resolver errors. -/
theorem get_or_create_bulk_conflict_propagates_witness :
    ((([9, 5].filter (fun i => i ∉ ([5] : List Uuid))).any
        (fun i => ([5, 9] : List Uuid).contains i)) = true) ∧
    get_or_create_bulk [5] [5, 9] [9, 5] =
      .error "IntegrityError: duplicate key value violates unique constraint" :=
  ⟨by decide, get_or_create_bulk_conflict_propagates [5] [5, 9] [9, 5] (by decide)⟩

/-- Claim C7: amount and quantity bounds are enforced exactly at the boundary:
amount 0.00 is rejected and 0.01 accepted; any value parsing with 3 or more
fractional digits (such as 10.005) is rejected; quantity 0 is rejected and 1
accepted; and every row accepted by full row validation has a strictly
positive amount with at most 2 decimal digits and a strictly positive
quantity. -/
theorem amount_quantity_boundary :
    validateAmount "0.00" = .error "Input should be greater than 0" ∧
    validateAmount "0.01" = .ok ⟨1, 2⟩ ∧
    (∀ s d, parseDecimal s = some d → 3 ≤ d.scale → ∃ e, validateAmount s = .error e) ∧
    validateAmount "10.005" = .error "Amount must have at most 2 decimal places" ∧
    validateQuantity "0" = .error "Input should be greater than 0" ∧
    validateQuantity "1" = .ok 1 ∧
    (∀ r t, validateRowFields r = .ok t →
      0 < t.amount.mantissa ∧ t.amount.scale ≤ 2 ∧ 0 < t.quantity) := by
  refine ⟨rfl, rfl, ?_, rfl, rfl, rfl, ?_⟩
  · intro s d hp hs
    unfold validateAmount
    rw [hp]
    by_cases hm : d.mantissa ≤ 0
    · exact ⟨"Input should be greater than 0", by simp [hm]⟩
    · have h2 : 2 < d.scale := by omega
      exact ⟨"Amount must have at most 2 decimal places", by simp [hm, h2]⟩
  · intro r t h
    simp only [validateRowFields, Bind.bind, bind] at h
    obtain ⟨tid, _, h⟩ := except_bind_ok h
    obtain ⟨ts, _, h⟩ := except_bind_ok h
    obtain ⟨amt, hamt, h⟩ := except_bind_ok h
    obtain ⟨cur, _, h⟩ := except_bind_ok h
    obtain ⟨cid, _, h⟩ := except_bind_ok h
    obtain ⟨pid, _, h⟩ := except_bind_ok h
    obtain ⟨qty, hqty, h⟩ := except_bind_ok h
    simp only [pure, Except.pure] at h
    cases h
    have ha := validateAmount_ok _ _ hamt
    have hq := validateQuantity_ok _ _ hqty
    exact ⟨ha.1, ha.2, hq⟩

/-- Witness for C7: 10.005 parses with 3 fractional digits and is rejected;
`sampleRow` is accepted and its validated fields satisfy the bounds. -/
theorem amount_quantity_boundary_witness :
    (parseDecimal "10.005" = some ⟨10005, 3⟩) ∧
    (∃ e, validateAmount "10.005" = .error e) ∧
    (validateRowFields sampleRow = .ok sampleCreate) ∧
    (0 < sampleCreate.amount.mantissa ∧ sampleCreate.amount.scale ≤ 2 ∧
      0 < sampleCreate.quantity) :=
  ⟨rfl, amount_quantity_boundary.2.2.1 "10.005" ⟨10005, 3⟩ rfl (by decide), rfl,
   amount_quantity_boundary.2.2.2.2.2.2 sampleRow sampleCreate rfl⟩

/-- Claim C8: the raw currency field is whitespace-stripped before being
compared against the closed enumeration: a padded member value such as
" PLN " validates to PLN, every accepted value is, after stripping, exactly
one of the member values, and any string whose stripped form is outside
the enumeration (internal whitespace included) is a validation error. -/
theorem currency_stripped_closed_enum :
    validateCurrency " PLN " = .ok .PLN ∧
    validateCurrency "\tEUR\n" = .ok .EUR ∧
    validateCurrency "PL N" = .error "Input should be PLN, EUR or USD" ∧
    (∀ s c, validateCurrency s = .ok c → stripSpaces s = c.value) ∧
    (∀ s, stripSpaces s ≠ "PLN" → stripSpaces s ≠ "EUR" → stripSpaces s ≠ "USD" →
      validateCurrency s = .error "Input should be PLN, EUR or USD") := by
  refine ⟨rfl, rfl, rfl, ?_, ?_⟩
  · intro s c h
    unfold validateCurrency currencyFromString at h
    by_cases h1 : stripSpaces s = "PLN"
    · simp [h1] at h
      rw [← h, h1]
      rfl
    · by_cases h2 : stripSpaces s = "EUR"
      · simp [h1, h2] at h
        rw [← h, h2]
        rfl
      · by_cases h3 : stripSpaces s = "USD"
        · simp [h1, h2, h3] at h
          rw [← h, h3]
          rfl
        · simp [h1, h2, h3] at h
  · intro s h1 h2 h3
    unfold validateCurrency currencyFromString
    simp [h1, h2, h3]

/-- Witness for C8: " PLN " strips to the PLN member value and an
out-of-enumeration string is rejected. -/
theorem currency_stripped_closed_enum_witness :
    (stripSpaces " PLN " = CurrencyEnum.PLN.value) ∧
    (validateCurrency "zl" = .error "Input should be PLN, EUR or USD") :=
  ⟨currency_stripped_closed_enum.2.2.2.1 " PLN " .PLN rfl,
   currency_stripped_closed_enum.2.2.2.2 "zl" (by decide) (by decide) (by decide)⟩

/-- Claim C9: during one import call the batch status only moves forward
along pending → processing → completed/failed: the status history (creation
in `pending` followed by the assigned updates) is strictly increasing in the
forward order, so no update assigns an earlier status and the terminal
statuses are never followed by another update. -/
theorem import_batch_status_forward (db : DB) (file : CsvFile) :
    List.Chain' (fun a b => statusRank a < statusRank b) (statusTrace db file) := by
  have h : (import_csv db file).statusUpdates = [.failed]
      ∨ (import_csv db file).statusUpdates = [.processing, .completed]
      ∨ (import_csv db file).statusUpdates = [.processing, .failed] := by
    unfold import_csv
    split
    · exact Or.inl rfl
    · split
      · exact Or.inr (Or.inl rfl)
      · split
        · exact Or.inr (Or.inr rfl)
        · exact Or.inr (Or.inl rfl)
  unfold statusTrace
  rcases h with h | h | h <;> rw [h] <;>
    simp [List.chain'_cons, statusRank]

/-- Claim C10: the per-row duplicate check consults only the persisted store,
so two well-formed rows of one file sharing an identifier that is not yet
stored both pass it: parsing yields both rows in the valid list with no
row-level error, the bulk insert then raises the uniqueness violation, and
the whole import fails as a batch-level failure with the store unchanged. -/
theorem intra_batch_duplicate_fails_batch (db : DB) (fn : List String)
    (r1 r2 : RawRow) (t1 t2 : TransactionCreate)
    (hfn : missingHeaders fn = [])
    (h1 : validateRowFields r1 = .ok t1)
    (h2 : validateRowFields r2 = .ok t2)
    (hid : t1.transaction_id = t2.transaction_id)
    (hnew : txExists db.txns t1.transaction_id = false) :
    parseCsv db.txns ⟨true, some fn, [r1, r2]⟩ = .ok ([t1, t2], [], 2) ∧
    create_bulk db.txns [t1, t2] =
      .error "IntegrityError: duplicate key value violates unique constraint" ∧
    (import_csv db ⟨true, some fn, [r1, r2]⟩).result =
      .error "IntegrityError: duplicate key value violates unique constraint" ∧
    (import_csv db ⟨true, some fn, [r1, r2]⟩).db = db := by
  have hnew2 : txExists db.txns t2.transaction_id = false := hid ▸ hnew
  have hp1 : processRow db.txns 2 r1 = .inr t1 := by
    unfold processRow
    rw [h1]
    simp [hnew]
  have hp2 : processRow db.txns 3 r2 = .inr t2 := by
    unfold processRow
    rw [h2]
    simp [hnew2]
  have hparse : parseCsv db.txns ⟨true, some fn, [r1, r2]⟩ = .ok ([t1, t2], [], 2) := by
    unfold parseCsv
    simp [hfn, parseRows, hp1, hp2]
  have hfail : create_bulk db.txns [t1, t2] =
      .error "IntegrityError: duplicate key value violates unique constraint" := by
    unfold create_bulk
    rw [if_neg]
    rintro ⟨hnd, -⟩
    rw [List.map_cons, List.map_cons, List.map_nil, hid] at hnd
    simp at hnd
  have hproc := process_transactions_create_bulk_error db [t1, t2] _ hfail
  have hrun : import_csv db ⟨true, some fn, [r1, r2]⟩ =
      { result := .error "IntegrityError: duplicate key value violates unique constraint",
        db := db, statusUpdates := [.processing, .failed] } := by
    unfold import_csv
    rw [hparse]
    simp [hproc]
  exact ⟨hparse, hfail, by rw [hrun], by rw [hrun]⟩

/-- Witness for C10: the two sample rows share identifier 1, absent from the
empty store; both are collected, and the import fails as one batch. -/
theorem intra_batch_duplicate_fails_batch_witness :
    parseCsv (DB.mk [] [] []).txns ⟨true, some requiredHeaders, [sampleRow, sampleRowB]⟩ =
      .ok ([sampleCreate, sampleCreateB], [], 2) ∧
    create_bulk (DB.mk [] [] []).txns [sampleCreate, sampleCreateB] =
      .error "IntegrityError: duplicate key value violates unique constraint" ∧
    (import_csv ⟨[], [], []⟩ ⟨true, some requiredHeaders, [sampleRow, sampleRowB]⟩).result =
      .error "IntegrityError: duplicate key value violates unique constraint" ∧
    (import_csv ⟨[], [], []⟩ ⟨true, some requiredHeaders, [sampleRow, sampleRowB]⟩).db =
      ⟨[], [], []⟩ :=
  intra_batch_duplicate_fails_batch ⟨[], [], []⟩ requiredHeaders sampleRow sampleRowB
    sampleCreate sampleCreateB (by decide) rfl rfl rfl rfl
